import Mathlib

/-!
Shallow embedding of `src/app/classes/jobs.py` (class `Jobs`) from the
viki repository: an on-disk job registry (one directory per job holding a
`config.json` record and a cumulative `output.txt` log), a shell command
runner, and the job execution engine.

Modelling conventions:
* The filesystem state relevant to the class is the jobs root directory
  (`/usr/local/viki/jobs`), its job subdirectories, and the `/tmp/viki-*`
  scratch workspaces allocated by `run_job`.  The jobs root is an
  association list keyed by job name; `none` models a missing root.
* Job names are modelled for simple names (no slash, no `.`/`..` path
  components, no shell metacharacters) plus the empty string.  Python
  builds paths by concatenation, so the empty name resolves to the
  registry root itself (`jobs_path + "/"`); that corner is modelled
  explicitly wherever the code reaches it with the root present.
* `uuid.uuid4()` freshness is modelled by a counter: the next scratch
  workspace gets id `tmpCounter`, which is then incremented.
* Shell step execution is abstracted by an oracle mapping the command
  string to its outcome (an exit code, negative for signal termination as
  Python's `Popen.poll` reports it, or a spawn failure, which Python's
  `Popen` raises as `OSError`).  Side effects of the spawned shell on the
  registry itself are outside the model: the engine hands a step only the
  output sink.  `bash -xc` echoes each executed command into the output
  sink, so the output log is modelled as the list of executed commands.
* Uncaught Python exceptions are `Except.error` values carrying the
  exception kind; every operation returns the resulting filesystem next
  to the outcome, so post-states of raising paths are observable.
* The `viki-<uuid>` staging script file written and removed by
  `_run_shell_command` is not modelled; no claim concerns it.
-/

namespace Viki

/-- A parsed JSON object held in a job's `config.json`.  Each field is
optional: `none` models the key being absent from the JSON object (so a
Python subscript raises `KeyError`), `some v` a present value.  Python
falsiness of present values (empty string, empty list) is tested
explicitly at use sites, mirroring `if not json_text[...]`. -/
structure JobConfig where
  description : Option String
  steps : Option (List String)
  name : Option String
  runNumber : Option Nat
  lastSuccessfulRun : Option Nat
  lastFailedRun : Option Nat
deriving DecidableEq

/-- Content of a `config.json` file as `json.loads` in `run_job` sees it:
`malformed` is text that is not valid JSON (`json.loads` raises
`json.JSONDecodeError`, a subclass of `ValueError`); `jsonNull` and
`jsonFalse` parse to Python `None` / `False` (the explicit
`job_json is False or job_json is None` check); `nonObject` is any other
non-dict JSON value (list, string, number, `true`), whose subscript by
`"steps"` raises `TypeError`; `obj` is a JSON object. -/
inductive ConfigFile
  | malformed
  | jsonNull
  | jsonFalse
  | nonObject
  | obj (cfg : JobConfig)
deriving DecidableEq

/-- One job directory under the jobs root: the optional `config.json`
file and the cumulative `output.txt` log (list of executed commands,
appended on every run, never truncated). -/
structure JobDir where
  config : Option ConfigFile
  output : List String
deriving DecidableEq

/-- The jobs root directory: job name to job directory, in listing order. -/
abbrev Registry := List (String × JobDir)

/-- The filesystem state the `Jobs` class touches: the jobs root
(`none` when `/usr/local/viki/jobs` does not exist), the set of live
`/tmp/viki-*` scratch workspaces (by id), and the freshness counter
standing in for `uuid.uuid4()`. -/
structure FS where
  jobsRoot : Option Registry
  tmpDirs : List Nat
  tmpCounter : Nat
deriving DecidableEq

/-- First entry of the registry with the given name, as path resolution
finds the job directory. -/
def lookupReg : Registry → String → Option JobDir
  | [], _ => none
  | (k, d) :: t, n => if k = n then some d else lookupReg t n

/-- Overwrite the `config.json` of the named job directory
(`_write_job_file` replaces the whole record file). -/
def writeConfigReg : Registry → String → ConfigFile → Registry
  | [], _, _ => []
  | (k, d) :: t, n, c =>
    (k, if k = n then { d with config := some c } else d) :: writeConfigReg t n c

/-- Replace the named job directory's `output.txt` content. -/
def setOutputReg : Registry → String → List String → Registry
  | [], _, _ => []
  | (k, d) :: t, n, log =>
    (k, if k = n then { d with output := log } else d) :: setOutputReg t n log

/-- Remove the named job directory (`rm -rf <jobs_root>/<n>` for a simple
name `n`). -/
def removeReg : Registry → String → Registry
  | [], _ => []
  | p :: t, n => if p.1 = n then removeReg t n else p :: removeReg t n

/-- Job directory found for a name under a possibly missing root. -/
def lookupRoot (root : Option Registry) (n : String) : Option JobDir :=
  match root with
  | none => none
  | some m => lookupReg m n

/-- Job directory found for a name, `none` when the root is missing. -/
def lookupJob (fs : FS) (n : String) : Option JobDir :=
  lookupRoot fs.jobsRoot n

/-- `os.path.isdir` / `os.path.exists` on `jobs_path + "/" + n`.  The
empty name resolves (trailing slash) to the registry root itself; a
simple name resolves to its job directory. -/
def dirExistsRoot (root : Option Registry) (n : String) : Bool :=
  if n = "" then root.isSome else (lookupRoot root n).isSome

/-- `dirExistsRoot` lifted to a filesystem state. -/
def dirExists (fs : FS) (n : String) : Bool :=
  dirExistsRoot fs.jobsRoot n

/-- Content of `jobs_path + "/" + n + "/config.json"` when that file
exists.  For the empty name this is `jobs_path + "//config.json"`, the
registry root's own `config.json`, which the registry never contains. -/
def configOfRoot (root : Option Registry) (n : String) : Option ConfigFile :=
  if n = "" then none else (lookupRoot root n).bind JobDir.config

/-- `configOfRoot` lifted to a filesystem state. -/
def configOf (fs : FS) (n : String) : Option ConfigFile :=
  configOfRoot fs.jobsRoot n

/-- Current `output.txt` content of the named job (empty when absent;
`open(..., 'a')` creates the file on first append). -/
def outputOfRoot (root : Option Registry) (n : String) : List String :=
  ((lookupRoot root n).map JobDir.output).getD []

/-- `outputOfRoot` lifted to a filesystem state. -/
def outputOf (fs : FS) (n : String) : List String :=
  outputOfRoot fs.jobsRoot n

/-- `_dirty_rm_rf` on a scratch workspace path. -/
def rmTmp (fs : FS) (wid : Nat) : FS :=
  { fs with tmpDirs := fs.tmpDirs.erase wid }

/-- Uncaught Python exception kinds reachable from the `Jobs` methods. -/
inductive PyExc
  | keyError (k : String)
  | typeError
  | jsonDecodeError
  | stopIter
  | osError (msg : String)
deriving DecidableEq

/-- Outcome of handing one command string to `subprocess.Popen`:
terminated with an exit code (negative for signal termination, as
`poll()` reports it), or the process could not be spawned at all, which
`Popen` raises as `OSError`. -/
inductive SpawnOutcome
  | exited (code : Int)
  | spawnFail
deriving DecidableEq

/-- Oracle fixing the outcome of each shell command in a run. -/
abbrev ExecEnv := String → SpawnOutcome

/-- Message of the `OSError` raised when `/bin/bash` cannot be spawned
(the OS-supplied text is abstracted to a fixed string). -/
def spawnFailMsg : String := "No such file or directory"

/-- `Jobs._run_shell_command`: append-run one command with `bash -xc`
into the output sink, returning `(return_code == 0, return_code)` and the
extended sink.  A spawn failure raises `OSError` before anything is
echoed, so the sink is unchanged on that path. -/
def run_shell_command (env : ExecEnv) (command : String) (log : List String) :
    Except PyExc (Bool × Int × List String) :=
  match env command with
  | .spawnFail => .error (.osError spawnFailMsg)
  | .exited c => .ok (c == 0, c, log ++ [command])

/-- How the step loop of `run_job` ended. -/
inductive StepsOutcome
  | allOk
  | stepFailed (code : Int)
  | spawnFailed (msg : String)
deriving DecidableEq

/-- `str(error)` as `run_job`'s handlers produce the result message. -/
def pyExcMessage : PyExc → String
  | .keyError k => k
  | .typeError => "TypeError"
  | .jsonDecodeError => "JSONDecodeError"
  | .stopIter => "StopIteration"
  | .osError m => m

/-- The step loop of `run_job`: run each step in declared order through
`_run_shell_command`, accumulating the output log; stop at the first step
whose success flag is false (the loop then raises
`SystemError('Build step failed')`), or at a spawn failure (`OSError`
propagating out of `_run_shell_command`). -/
def runSteps (env : ExecEnv) : List String → List String → StepsOutcome × List String
  | [], log => (.allOk, log)
  | s :: rest, log =>
    match run_shell_command env s log with
    | .error e => (.spawnFailed (pyExcMessage e), log)
    | .ok (ok, c, log1) => if ok then runSteps env rest log1 else (.stepFailed c, log1)

/-- Uniform success/message record (`create_job`, `update_job`,
`delete_job` return exactly this shape). -/
structure StatusResult where
  success : Nat
  message : String
deriving DecidableEq

/-- Result record of `get_jobs`. -/
structure JobsResult where
  success : Nat
  message : String
  jobs : List String
deriving DecidableEq

/-- Result record of `get_job_by_name`; `config_json` holds the raw file
content when read, `none` standing for the initial `""`. -/
structure GetResult where
  success : Nat
  message : String
  name : Option String
  config_json : Option ConfigFile
deriving DecidableEq

/-- Result record of `run_job`. -/
structure RunResult where
  success : Nat
  message : String
  return_code : Int
deriving DecidableEq

/-- `Jobs.get_jobs`: list the subdirectories of the jobs root.  When the
root is missing, `os.walk` swallows the `OSError` inside the generator
and yields nothing, so `next(os.walk(...))` raises `StopIteration`, which
the method's `except OSError` does not catch: the exception escapes (that
handler is unreachable for a missing root). -/
def get_jobs (fs : FS) : Except PyExc JobsResult × FS :=
  match fs.jobsRoot with
  | none => (.error .stopIter, fs)
  | some m => (.ok ⟨1, "Ok", m.map Prod.fst⟩, fs)

/-- `Jobs.get_job_by_name`: `none` models a Python `None` argument
(caught `ValueError`); otherwise return the raw `config.json` content
when the job directory and config file exist, else the caught `OSError`
message.  Never raises. -/
def get_job_by_name (fs : FS) (name : Option String) : GetResult :=
  match name with
  | none => ⟨0, "Missing required field: jobName", none, none⟩
  | some n =>
    if dirExists fs n && (configOf fs n).isSome then
      ⟨1, "Ok", some n, configOf fs n⟩
    else
      ⟨0, "Job directory not found", some n, none⟩

/-- `Jobs.create_job`.  The `ast.literal_eval` string branch is modelled
away: the payload arrives as an already-parsed object.  Order follows the
source: existence check, `os.mkdir` (raising uncaught `OSError` when the
root is missing — for the empty name with the root missing Python would
instead create the root directory itself; no theorem touches that
corner), then the truthiness checks on `description` and `steps` (a
missing key raises uncaught `KeyError`), then the single whole-record
write with counters zeroed and `name` stamped.  Validation failures after
`os.mkdir` leave the bare job directory behind. -/
def create_job (fs : FS) (new_name : String) (json_text : JobConfig) :
    Except PyExc StatusResult × FS :=
  if dirExists fs new_name then
    (.ok ⟨0, "Job directory already exists"⟩, fs)
  else
    match fs.jobsRoot with
    | none => (.error (.osError "No such file or directory"), fs)
    | some m =>
      let m1 : Registry := (new_name, ⟨none, []⟩) :: m
      let fs1 : FS := { fs with jobsRoot := some m1 }
      match json_text.description with
      | none => (.error (.keyError "description"), fs1)
      | some d =>
        if d = "" then (.ok ⟨0, "Missing description"⟩, fs1)
        else
          match json_text.steps with
          | none => (.error (.keyError "steps"), fs1)
          | some st =>
            if st = [] then (.ok ⟨0, "Missing steps"⟩, fs1)
            else
              let full : JobConfig :=
                ⟨some d, some st, some new_name, some 0, some 0, some 0⟩
              (.ok ⟨1, "Job created successfully"⟩,
               { fs with jobsRoot := some (writeConfigReg m1 new_name (.obj full)) })

/-- `Jobs.update_job`: unfinished stub.  It tests the literal relative
path `"Placeholder"` in the process working directory — modelled as never
existing — and returns a fixed record. -/
def update_job (fs : FS) (_name : String) : StatusResult × FS :=
  (⟨1, "-- Under Construction --"⟩, fs)

/-- `Jobs.run_job`: allocate a fresh `/tmp/viki-<uuid>` workspace before
the `try` block, validate directory / config file / parsed content /
`steps` key, run the steps fail-fast, and remove the workspace after the
`try`/`except`.  A malformed config (`json.JSONDecodeError`, a
`ValueError` the handlers do not list) or a non-object config
(`TypeError`) escapes the handlers, skipping the cleanup line, so the
workspace survives on those paths. -/
def run_job (fs0 : FS) (name : String) (env : ExecEnv) :
    Except PyExc RunResult × FS :=
  let wid := fs0.tmpCounter
  let fs : FS := { fs0 with tmpDirs := wid :: fs0.tmpDirs, tmpCounter := fs0.tmpCounter + 1 }
  if dirExists fs name then
    match configOf fs name with
    | none => (.ok ⟨0, "Job file not found", 0⟩, rmTmp fs wid)
    | some .malformed => (.error .jsonDecodeError, fs)
    | some .jsonNull => (.ok ⟨0, "Job file could not be read", 0⟩, rmTmp fs wid)
    | some .jsonFalse => (.ok ⟨0, "Job file could not be read", 0⟩, rmTmp fs wid)
    | some .nonObject => (.error .typeError, fs)
    | some (.obj cfg) =>
      match cfg.steps with
      | none => (.ok ⟨0, "Job has no steps", 0⟩, rmTmp fs wid)
      | some steps =>
        match runSteps env steps (outputOf fs name) with
        | (outc, log) =>
          let fs1 : FS := { fs with jobsRoot := fs.jobsRoot.map fun m => setOutputReg m name log }
          match outc with
          | .allOk => (.ok ⟨1, "Run successful", 0⟩, rmTmp fs1 wid)
          | .stepFailed c => (.ok ⟨0, "Build step failed", c⟩, rmTmp fs1 wid)
          | .spawnFailed msg => (.ok ⟨0, msg, 0⟩, rmTmp fs1 wid)
  else
    (.ok ⟨0, "Job not found", 0⟩, rmTmp fs wid)

/-- `Jobs.delete_job`: only a Python `None` name is rejected
(`name is None`); any string, the empty one included, proceeds to the
`isdir` test on `jobs_path + '/' + name`.  For the empty name that path
is the registry root itself, so `_dirty_rm_rf` removes the whole root. -/
def delete_job (fs : FS) (name : Option String) : StatusResult × FS :=
  match name with
  | none => (⟨0, "Missing job name"⟩, fs)
  | some n =>
    if dirExists fs n then
      if n = "" then
        (⟨1, "Job deleted"⟩, { fs with jobsRoot := none })
      else
        (⟨1, "Job deleted"⟩, { fs with jobsRoot := fs.jobsRoot.map fun m => removeReg m n })
    else
      (⟨0, "Job not found"⟩, fs)

/-- The six public operations with their arguments, for claims that
range over every public call of the class. -/
inductive OpCall
  | listJobs
  | getJob (name : Option String)
  | createJob (name : String) (cfg : JobConfig)
  | updateJob (name : String)
  | runJob (name : String) (env : ExecEnv)
  | deleteJob (name : Option String)

/-- The success/message part common to every result record. -/
structure OpRet where
  success : Nat
  message : String
deriving DecidableEq

/-- Run one public operation, projecting its result record to the
success/message part every record carries. -/
def execOp (fs : FS) : OpCall → Except PyExc OpRet × FS
  | .listJobs =>
    ((get_jobs fs).1.map fun x => ⟨x.success, x.message⟩, (get_jobs fs).2)
  | .getJob n => (.ok ⟨(get_job_by_name fs n).success, (get_job_by_name fs n).message⟩, fs)
  | .createJob n c =>
    ((create_job fs n c).1.map fun x => ⟨x.success, x.message⟩, (create_job fs n c).2)
  | .updateJob n =>
    (.ok ⟨(update_job fs n).1.success, (update_job fs n).1.message⟩, (update_job fs n).2)
  | .runJob n env =>
    ((run_job fs n env).1.map fun x => ⟨x.success, x.message⟩, (run_job fs n env).2)
  | .deleteJob n =>
    (.ok ⟨(delete_job fs n).1.success, (delete_job fs n).1.message⟩, (delete_job fs n).2)

/-- True exactly for the two config contents whose errors escape
`run_job`'s handlers (parse error / non-object subscript). -/
def configBad : Option ConfigFile → Bool
  | some .malformed => true
  | some .nonObject => true
  | _ => false

/-- Sufficient conditions under which a public call reaches no uncaught
exception: the jobs root present for `get_jobs` and `create_job`, the
payload's `description` and `steps` keys present for `create_job`, and a
readable (or absent) config for `run_job`.  The remaining operations
catch everything they can raise. -/
def NoHole (fs : FS) : OpCall → Prop
  | .listJobs => fs.jobsRoot.isSome = true
  | .getJob _ => True
  | .createJob _ c =>
      fs.jobsRoot.isSome = true ∧ c.description.isSome = true ∧ c.steps.isSome = true
  | .updateJob _ => True
  | .runJob n _ => configBad (configOf fs n) = false
  | .deleteJob _ => True

/-- Did the call return a result record (rather than raise)? -/
def exceptOk {α : Type} : Except PyExc α → Bool
  | .ok _ => true
  | .error _ => false

instance {ε α : Type} [DecidableEq ε] [DecidableEq α] : DecidableEq (Except ε α) := fun x y =>
  match x, y with
  | .ok a, .ok b =>
    if h : a = b then .isTrue (by rw [h]) else .isFalse fun hc => h (Except.ok.inj hc)
  | .ok _, .error _ => .isFalse fun hc => Except.noConfusion hc
  | .error _, .ok _ => .isFalse fun hc => Except.noConfusion hc
  | .error a, .error b =>
    if h : a = b then .isTrue (by rw [h]) else .isFalse fun hc => h (Except.error.inj hc)

/-! Helper lemmas about the registry and the step loop. -/

theorem lookupReg_setOutput (m : Registry) (n : String) (log : List String) (q : String) :
    lookupReg (setOutputReg m n log) q =
      (lookupReg m q).map fun d => if q = n then { d with output := log } else d := by
  induction m with
  | nil => simp [setOutputReg, lookupReg]
  | cons p t ih =>
    obtain ⟨k, d⟩ := p
    simp only [setOutputReg, lookupReg]
    by_cases hkq : k = q
    · subst hkq
      simp
    · simp [hkq, ih]

theorem lookupReg_writeConfig (m : Registry) (n : String) (c : ConfigFile) (q : String) :
    lookupReg (writeConfigReg m n c) q =
      (lookupReg m q).map fun d => if q = n then { d with config := some c } else d := by
  induction m with
  | nil => simp [writeConfigReg, lookupReg]
  | cons p t ih =>
    obtain ⟨k, d⟩ := p
    simp only [writeConfigReg, lookupReg]
    by_cases hkq : k = q
    · subst hkq
      simp
    · simp [hkq, ih]

theorem lookupReg_setOutput_config (m : Registry) (n : String) (log : List String)
    (q : String) :
    (lookupReg (setOutputReg m n log) q).bind JobDir.config =
      (lookupReg m q).bind JobDir.config := by
  rw [lookupReg_setOutput]
  cases lookupReg m q with
  | none => rfl
  | some d => by_cases h : q = n <;> simp [h]

theorem runSteps_prefix_ok (env : ExecEnv) (l1 rest log : List String)
    (h : ∀ c ∈ l1, env c = .exited 0) :
    runSteps env (l1 ++ rest) log = runSteps env rest (log ++ l1) := by
  induction l1 generalizing log with
  | nil => simp
  | cons a t ih =>
    have ha : env a = .exited 0 := h a (by simp)
    rw [List.cons_append, runSteps]
    simp only [run_shell_command, ha]
    rw [if_pos (by simp), ih (log ++ [a]) fun c hc => h c (by simp [hc])]
    simp

theorem runSteps_first_fail (env : ExecEnv) (l1 l2 : List String) (s : String) (e : Int)
    (h1 : ∀ c ∈ l1, env c = .exited 0) (hs : env s = .exited e) (he : e ≠ 0)
    (log : List String) :
    runSteps env (l1 ++ s :: l2) log = (.stepFailed e, log ++ l1 ++ [s]) := by
  rw [runSteps_prefix_ok env l1 _ log h1, runSteps]
  simp only [run_shell_command, hs]
  rw [if_neg (by simpa using he)]

/-- C1: the claim says an empty job name makes `delete_job` fail with
`success = 0` and remove nothing.  Evaluating the code at `name = ""` on
a registry holding jobs `a` and `b`: the `name is None` guard does not
fire, `jobs_path + "/" + ""` is the registry root itself, `isdir` holds,
and `rm -rf` destroys the whole registry; the call reports
`success = 1, "Job deleted"`. -/
theorem delete_empty_name_destroys_registry :
    delete_job ⟨some [("a", ⟨none, []⟩), ("b", ⟨none, []⟩)], [], 0⟩ (some "") =
      (⟨1, "Job deleted"⟩, ⟨none, [], 0⟩) := by
  decide

/-- C10: `create_job` with an empty description returns `success = 0`
but has already created the job directory; the directory remains with no
config record, and a second `create_job` under the same name then fails
with the already-exists error even though no record was ever persisted. -/
theorem create_job_leftover_dir_persists :
    (create_job ⟨some [], [], 0⟩ "myjob" ⟨some "", some ["true"], none, none, none, none⟩).1 =
        .ok ⟨0, "Missing description"⟩ ∧
    (create_job ⟨some [], [], 0⟩ "myjob" ⟨some "", some ["true"], none, none, none, none⟩).2 =
        ⟨some [("myjob", ⟨none, []⟩)], [], 0⟩ ∧
    create_job ⟨some [("myjob", ⟨none, []⟩)], [], 0⟩ "myjob"
        ⟨some "a job", some ["true"], none, none, none, none⟩ =
      (.ok ⟨0, "Job directory already exists"⟩, ⟨some [("myjob", ⟨none, []⟩)], [], 0⟩) := by
  refine ⟨by decide, by decide, by decide⟩

/-- C2 counterexample: `run_job` on a job whose `config.json` holds
malformed JSON raises (`json.JSONDecodeError` is a `ValueError`, which
the handlers do not catch), so this public call does not return a result
record. -/
theorem run_job_raises_on_malformed_config_cex :
    (execOp ⟨some [("j", ⟨some .malformed, []⟩)], [], 0⟩
        (.runJob "j" fun _ => .exited 0)).1 = .error .jsonDecodeError := by
  decide

/-- C3 counterexample: a persisted record whose `steps` field is the
empty list makes `run_job` report `success = 1, "Run successful"` — the
`KeyError` branch producing the missing-steps message fires only when
the `steps` key is absent, and an empty loop raises nothing. -/
theorem run_job_empty_steps_succeeds_cex :
    (run_job ⟨some [("j", ⟨some (.obj ⟨some "d", some [], some "j",
        some 0, some 0, some 0⟩), []⟩)], [], 0⟩ "j" fun _ => .exited 0).1 =
      .ok ⟨1, "Run successful", 0⟩ := by
  decide

/-- C5 counterexample: when the process cannot be spawned at all,
`_run_shell_command` raises the `OSError` coming out of `Popen` instead
of reporting `success = false` with a sentinel negative code. -/
theorem run_shell_command_spawn_raises_cex :
    run_shell_command (fun _ => .spawnFail) "echo hi" [] =
      .error (.osError spawnFailMsg) := by
  decide

theorem configOfRoot_setOutput (root : Option Registry) (n : String) (log : List String)
    (q : String) :
    configOfRoot (root.map fun m => setOutputReg m n log) q = configOfRoot root q := by
  cases root with
  | none => rfl
  | some m =>
    by_cases hq : q = ""
    · simp [configOfRoot, hq]
    · simp [configOfRoot, lookupRoot, hq, lookupReg_setOutput_config]

/-- C9: no `run_job` invocation modifies any job's persisted
configuration record — the run only appends to the output log and
touches the scratch workspace, so every job's `config.json` content
(counters included) after the call equals its content before, whatever
the outcome. -/
theorem run_job_preserves_job_config (fs : FS) (n : String) (env : ExecEnv) (q : String) :
    configOf (run_job fs n env).2 q = configOf fs q := by
  simp only [run_job]
  repeat' split
  all_goals simp [configOf, rmTmp, configOfRoot_setOutput]

/-- C8 counterexample: on a job with a malformed config the parse error
escapes `run_job` before the cleanup line, so the scratch workspace that
was already allocated (id 0) still exists when the call ends. -/
theorem run_job_workspace_leak_cex :
    (run_job ⟨some [("k", ⟨some .malformed, []⟩)], [], 0⟩ "k" fun _ => .exited 0).2.tmpDirs =
        [0] ∧
    (run_job ⟨some [("k", ⟨some .malformed, []⟩)], [], 0⟩ "k" fun _ => .exited 0).1 =
      .error .jsonDecodeError := by
  refine ⟨by decide, by decide⟩

/-- C8 (amended): whenever `run_job` returns a result record — success,
step failure, or any caught validation failure — the scratch workspace
allocated for the run has been removed, leaving the set of live
workspaces exactly as before the call.  Only the raising paths (the
counterexample above) leak the workspace. -/
theorem run_job_cleanup_on_return (fs : FS) (n : String) (env : ExecEnv)
    (r : RunResult) (fs2 : FS) (h : run_job fs n env = (.ok r, fs2)) :
    fs2.tmpDirs = fs.tmpDirs := by
  simp only [run_job] at h
  repeat' split at h
  all_goals injection h with h1 h2
  all_goals try injection h1
  all_goals subst h2
  all_goals simp [rmTmp, List.erase_cons_head]

/-- C8 witness: a run that returns (job not found) leaves the live
workspace set unchanged. -/
theorem run_job_cleanup_on_return_witness :
    (⟨some [], [], 1⟩ : FS).tmpDirs = (⟨some [], [], 0⟩ : FS).tmpDirs :=
  run_job_cleanup_on_return ⟨some [], [], 0⟩ "nope" (fun _ => .exited 0)
    ⟨0, "Job not found", 0⟩ ⟨some [], [], 1⟩ (by decide)

theorem exceptOk_map {α β : Type} (f : α → β) (e : Except PyExc α) :
    exceptOk (e.map f) = exceptOk e := by
  cases e <;> rfl

theorem create_job_ok (fs : FS) (n : String) (cfg : JobConfig)
    (h1 : fs.jobsRoot.isSome = true) (h2 : cfg.description.isSome = true)
    (h3 : cfg.steps.isSome = true) :
    exceptOk (create_job fs n cfg).1 = true := by
  simp only [create_job]
  split
  · rfl
  · cases hr : fs.jobsRoot with
    | none => rw [hr] at h1; simp at h1
    | some m =>
      dsimp only
      cases hd : cfg.description with
      | none => rw [hd] at h2; simp at h2
      | some d =>
        cases hst : cfg.steps with
        | none => rw [hst] at h3; simp at h3
        | some st =>
          simp only []
          split
          · rfl
          · split
            · rfl
            · rfl

theorem run_job_ok (fs : FS) (n : String) (env : ExecEnv)
    (h : configBad (configOf fs n) = false) :
    exceptOk (run_job fs n env).1 = true := by
  have h' : configBad (configOfRoot fs.jobsRoot n) = false := h
  simp only [run_job]
  split
  · split
    · rfl
    · rename_i heq
      have hx : configOfRoot fs.jobsRoot n = some .malformed := heq
      rw [hx] at h'
      simp [configBad] at h'
    · rfl
    · rfl
    · rename_i heq
      have hx : configOfRoot fs.jobsRoot n = some .nonObject := heq
      rw [hx] at h'
      simp [configBad] at h'
    · split
      · rfl
      · split <;> rfl
  · rfl

/-- C2 (amended): each public operation returns a uniform result record
carrying a success flag and a message, and propagates no exception,
whenever the call avoids the code's uncaught-exception holes
(`NoHole`): the jobs root must exist for `get_jobs` (else
`StopIteration` escapes) and for `create_job`'s `os.mkdir`; the create
payload must carry `description` and `steps` keys (else `KeyError`
escapes); and the target job's persisted config must not be malformed
or a non-object for `run_job` (else the parse/subscript error escapes —
see the counterexample).  `get_job_by_name`, `update_job` and
`delete_job` never raise. -/
theorem public_ops_uniform_result (fs : FS) (c : OpCall) (h : NoHole fs c) :
    exceptOk (execOp fs c).1 = true := by
  cases c with
  | listJobs =>
    have h' : fs.jobsRoot.isSome = true := h
    cases hr : fs.jobsRoot with
    | none => rw [hr] at h'; simp at h'
    | some m => simp [execOp, get_jobs, hr, exceptOk, Except.map]
  | getJob n => rfl
  | createJob n cfg =>
    obtain ⟨h1, h2, h3⟩ := h
    simp only [execOp, exceptOk_map]
    exact create_job_ok fs n cfg h1 h2 h3
  | updateJob n => rfl
  | runJob n env =>
    simp only [execOp, exceptOk_map]
    exact run_job_ok fs n env h
  | deleteJob n => rfl

/-- C2 witness: a concrete well-formed `create_job` call returns a
result record. -/
theorem public_ops_uniform_result_witness :
    exceptOk (execOp ⟨some [], [], 0⟩
      (.createJob "w2" ⟨some "d", some ["true"], none, none, none, none⟩)).1 = true :=
  public_ops_uniform_result ⟨some [], [], 0⟩
    (.createJob "w2" ⟨some "d", some ["true"], none, none, none, none⟩)
    ⟨rfl, rfl, rfl⟩

theorem outputOfRoot_setOutput_self (root : Option Registry) (n : String)
    (log : List String) (jd : JobDir) (hj : lookupRoot root n = some jd) :
    outputOfRoot (root.map fun m => setOutputReg m n log) n = log := by
  cases root with
  | none => simp [lookupRoot] at hj
  | some m =>
    have hm : lookupReg m n = some jd := hj
    simp [outputOfRoot, lookupRoot, lookupReg_setOutput, hm]

/-- C3 (amended): `run_job` reports the missing-steps failure
(`success = 0`, message `Job has no steps`) exactly when the persisted
record lacks the `steps` key (the `KeyError` handler); the workspace
allocated for the run is removed before returning.  A record whose
`steps` value is the empty list instead runs zero steps and reports
success — see the counterexample. -/
theorem run_job_missing_steps_field (fs : FS) (n : String) (env : ExecEnv)
    (jd : JobDir) (cfg : JobConfig) (hn : n ≠ "")
    (hj : lookupJob fs n = some jd) (hcf : jd.config = some (.obj cfg))
    (hst : cfg.steps = none) :
    (run_job fs n env).1 = .ok ⟨0, "Job has no steps", 0⟩ ∧
    (run_job fs n env).2.tmpDirs = fs.tmpDirs := by
  have hl : lookupRoot fs.jobsRoot n = some jd := hj
  have hdir : dirExistsRoot fs.jobsRoot n = true := by
    simp [dirExistsRoot, hn, hl]
  have hcfg : configOfRoot fs.jobsRoot n = some (.obj cfg) := by
    simp [configOfRoot, hn, hl, hcf]
  constructor
  · simp only [run_job, dirExists, configOf]
    simp [hdir, hcfg, hst]
  · simp only [run_job, dirExists, configOf]
    simp [hdir, hcfg, hst, rmTmp, List.erase_cons_head]

/-- C3 witness: a concrete record without a `steps` field yields the
missing-steps failure and leaves no workspace behind. -/
theorem run_job_missing_steps_field_witness :
    (run_job ⟨some [("w3", ⟨some (.obj ⟨some "d", none, none, none, none, none⟩), []⟩)], [], 0⟩
        "w3" fun _ => .exited 0).1 = .ok ⟨0, "Job has no steps", 0⟩ ∧
    (run_job ⟨some [("w3", ⟨some (.obj ⟨some "d", none, none, none, none, none⟩), []⟩)], [], 0⟩
        "w3" fun _ => .exited 0).2.tmpDirs =
      (⟨some [("w3", ⟨some (.obj ⟨some "d", none, none, none, none, none⟩), []⟩)], [], 0⟩ : FS).tmpDirs :=
  run_job_missing_steps_field
    ⟨some [("w3", ⟨some (.obj ⟨some "d", none, none, none, none, none⟩), []⟩)], [], 0⟩
    "w3" (fun _ => .exited 0)
    ⟨some (.obj ⟨some "d", none, none, none, none, none⟩), []⟩
    ⟨some "d", none, none, none, none, none⟩
    (by decide) (by decide) rfl rfl

/-- C4: fail-fast execution.  When a job's steps decompose as a prefix
of succeeding steps, one failing step `s` with exit code `e ≠ 0`, and an
arbitrary tail, `run_job` returns `success = 0` with message
`Build step failed` and return code `e`, and the output log records
exactly the prefix and the failing step: nothing after the first failing
step is ever executed. -/
theorem run_job_fail_fast (fs : FS) (n : String) (env : ExecEnv) (jd : JobDir)
    (cfg : JobConfig) (l1 l2 : List String) (s : String) (e : Int)
    (hn : n ≠ "") (hj : lookupJob fs n = some jd)
    (hcf : jd.config = some (.obj cfg)) (hst : cfg.steps = some (l1 ++ s :: l2))
    (h1 : ∀ c ∈ l1, env c = .exited 0) (hs : env s = .exited e) (he : e ≠ 0) :
    (run_job fs n env).1 = .ok ⟨0, "Build step failed", e⟩ ∧
    outputOf (run_job fs n env).2 n = outputOf fs n ++ l1 ++ [s] := by
  have hl : lookupRoot fs.jobsRoot n = some jd := hj
  have hdir : dirExistsRoot fs.jobsRoot n = true := by
    simp [dirExistsRoot, hn, hl]
  have hcfg : configOfRoot fs.jobsRoot n = some (.obj cfg) := by
    simp [configOfRoot, hn, hl, hcf]
  have hout : outputOfRoot fs.jobsRoot n = jd.output := by
    simp [outputOfRoot, hl]
  have hrun : runSteps env (l1 ++ s :: l2) jd.output =
      (.stepFailed e, jd.output ++ l1 ++ [s]) :=
    runSteps_first_fail env l1 l2 s e h1 hs he jd.output
  constructor
  · simp only [run_job, dirExists, configOf, outputOf]
    simp [hdir, hcfg, hst, hout, hrun]
  · simp only [run_job, dirExists, configOf, outputOf]
    simp [hdir, hcfg, hst, hout, hrun, rmTmp,
      outputOfRoot_setOutput_self fs.jobsRoot n (jd.output ++ (l1 ++ [s])) jd hl]

/-- C4 witness: steps `true, false, echo` with `false` exiting `1`:
the run fails with return code `1` and only `true` and `false` are
recorded as executed. -/
theorem run_job_fail_fast_witness :
    (run_job ⟨some [("w4", ⟨some (.obj ⟨some "d", some ["true", "false", "echo"],
        none, none, none, none⟩), []⟩)], [], 0⟩
        "w4" fun c => if c = "false" then .exited 1 else .exited 0).1 =
      .ok ⟨0, "Build step failed", 1⟩ ∧
    outputOf (run_job ⟨some [("w4", ⟨some (.obj ⟨some "d", some ["true", "false", "echo"],
        none, none, none, none⟩), []⟩)], [], 0⟩
        "w4" fun c => if c = "false" then .exited 1 else .exited 0).2 "w4" =
      outputOf (⟨some [("w4", ⟨some (.obj ⟨some "d", some ["true", "false", "echo"],
        none, none, none, none⟩), []⟩)], [], 0⟩ : FS) "w4" ++ ["true"] ++ ["false"] :=
  run_job_fail_fast
    ⟨some [("w4", ⟨some (.obj ⟨some "d", some ["true", "false", "echo"],
      none, none, none, none⟩), []⟩)], [], 0⟩
    "w4" (fun c => if c = "false" then .exited 1 else .exited 0)
    ⟨some (.obj ⟨some "d", some ["true", "false", "echo"], none, none, none, none⟩), []⟩
    ⟨some "d", some ["true", "false", "echo"], none, none, none, none⟩
    ["true"] ["echo"] "false" 1
    (by decide) (by decide) rfl rfl (by decide) (by decide) (by decide)

/-- C5 (amended): the Command Runner's success flag is true iff the
process exit code is exactly `0`, and any exit code (negative
signal-termination codes included) is returned alongside the flag; a
spawn failure, however, raises the `OSError` out of
`_run_shell_command` (translated to a failed result record by
`run_job`'s handler) instead of being reported as a sentinel negative
code — see the counterexample. -/
theorem run_shell_command_success_iff_zero (env : ExecEnv) (cmd : String)
    (log : List String) :
    (∀ c : Int, env cmd = .exited c →
      run_shell_command env cmd log = .ok (c == 0, c, log ++ [cmd]) ∧
        ((c == 0) = true ↔ c = 0)) ∧
    (env cmd = .spawnFail →
      run_shell_command env cmd log = .error (.osError spawnFailMsg)) := by
  constructor
  · intro c hc
    constructor
    · simp [run_shell_command, hc]
    · simp
  · intro hc
    simp [run_shell_command, hc]

/-- C5 witness: a command exiting `3` is reported (not raised) with
flag `3 == 0`, which is false. -/
theorem run_shell_command_success_iff_zero_witness :
    run_shell_command (fun _ => .exited 3) "x" [] = .ok ((3 : Int) == 0, 3, [] ++ ["x"]) ∧
    (((3 : Int) == 0) = true ↔ (3 : Int) = 0) :=
  (run_shell_command_success_iff_zero (fun _ => .exited 3) "x" []).1 3 rfl

/-- C6: for valid inputs (nonempty simple name, nonempty description,
nonempty steps) on a registry not containing the name, `create_job`
succeeds and a following `get_job_by_name` returns the persisted record
with the same description, steps and name, and all three counters `0`. -/
theorem create_then_get_roundtrip (fs : FS) (m : Registry) (n d : String)
    (st : List String) (cfg : JobConfig)
    (hroot : fs.jobsRoot = some m) (hn : n ≠ "") (hnew : lookupReg m n = none)
    (hd : d ≠ "") (hst : st ≠ [])
    (hcd : cfg.description = some d) (hcs : cfg.steps = some st) :
    (create_job fs n cfg).1 = .ok ⟨1, "Job created successfully"⟩ ∧
    get_job_by_name (create_job fs n cfg).2 (some n) =
      ⟨1, "Ok", some n, some (.obj ⟨some d, some st, some n, some 0, some 0, some 0⟩)⟩ := by
  have hex : dirExists fs n = false := by
    simp [dirExists, dirExistsRoot, hn, lookupRoot, hroot, hnew]
  have hc : create_job fs n cfg =
      (.ok ⟨1, "Job created successfully"⟩,
       { fs with jobsRoot := some (writeConfigReg ((n, ⟨none, []⟩) :: m) n
           (.obj ⟨some d, some st, some n, some 0, some 0, some 0⟩)) }) := by
    simp [create_job, hex, hroot, hcd, hcs, hd, hst]
  have hlook : lookupReg (writeConfigReg ((n, ⟨none, []⟩) :: m) n
      (.obj ⟨some d, some st, some n, some 0, some 0, some 0⟩)) n =
      some ⟨some (.obj ⟨some d, some st, some n, some 0, some 0, some 0⟩), []⟩ := by
    rw [lookupReg_writeConfig]
    simp [lookupReg]
  constructor
  · rw [hc]
  · rw [hc]
    simp [get_job_by_name, dirExists, dirExistsRoot, configOf, configOfRoot,
      lookupRoot, hn, hlook]

/-- C6 witness: creating `w6` on an empty registry and reading it back. -/
theorem create_then_get_roundtrip_witness :
    (create_job ⟨some [], [], 0⟩ "w6"
        ⟨some "desc", some ["true"], none, none, none, none⟩).1 =
      .ok ⟨1, "Job created successfully"⟩ ∧
    get_job_by_name (create_job ⟨some [], [], 0⟩ "w6"
        ⟨some "desc", some ["true"], none, none, none, none⟩).2 (some "w6") =
      ⟨1, "Ok", some "w6",
       some (.obj ⟨some "desc", some ["true"], some "w6", some 0, some 0, some 0⟩)⟩ :=
  create_then_get_roundtrip ⟨some [], [], 0⟩ [] "w6" "desc" ["true"]
    ⟨some "desc", some ["true"], none, none, none, none⟩
    rfl (by decide) rfl (by decide) (by decide) rfl rfl

/-- C7: when a first `create_job` for a name returns `success = 1`, any
second `create_job` for that same name — whatever its payload — returns
the already-exists failure and leaves the filesystem (in particular the
first job's persisted record) exactly unchanged. -/
theorem create_twice_already_exists (fs fs1 : FS) (n : String)
    (cfg cfg2 : JobConfig) (r : StatusResult)
    (h : create_job fs n cfg = (.ok r, fs1)) (hr : r.success = 1) :
    create_job fs1 n cfg2 = (.ok ⟨0, "Job directory already exists"⟩, fs1) := by
  simp only [create_job] at h
  split at h
  · injection h with h1 h2
    injection h1 with h1
    rw [← h1] at hr
    simp at hr
  · rename_i hex
    cases hroot : fs.jobsRoot with
    | none =>
      rw [hroot] at h
      injection h with h1 h2
      exact Except.noConfusion h1
    | some m =>
      rw [hroot] at h
      dsimp only at h
      cases hdesc : cfg.description with
      | none =>
        rw [hdesc] at h
        injection h with h1 h2
        exact Except.noConfusion h1
      | some d =>
        rw [hdesc] at h
        dsimp only at h
        by_cases hde : d = ""
        · rw [if_pos hde] at h
          injection h with h1 h2
          injection h1 with h1
          rw [← h1] at hr
          simp at hr
        · rw [if_neg hde] at h
          cases hsteps : cfg.steps with
          | none =>
            rw [hsteps] at h
            injection h with h1 h2
            exact Except.noConfusion h1
          | some st =>
            rw [hsteps] at h
            dsimp only at h
            by_cases hse : st = []
            · rw [if_pos hse] at h
              injection h with h1 h2
              injection h1 with h1
              rw [← h1] at hr
              simp at hr
            · rw [if_neg hse] at h
              injection h with h1 h2
              have hn : n ≠ "" := by
                intro hne
                apply hex
                simp [dirExists, dirExistsRoot, hne, hroot]
              have hex2 : dirExists fs1 n = true := by
                rw [← h2]
                simp [dirExists, dirExistsRoot, lookupRoot, hn,
                  lookupReg_writeConfig, lookupReg]
              simp only [create_job]
              rw [if_pos hex2]

/-- C7 witness: creating `w7` twice; the second call fails with the
already-exists message and changes nothing. -/
theorem create_twice_already_exists_witness :
    create_job
      ⟨some [("w7", ⟨some (.obj ⟨some "d", some ["true"], some "w7",
        some 0, some 0, some 0⟩), []⟩)], [], 0⟩
      "w7" ⟨some "other", some ["false"], none, none, none, none⟩ =
      (.ok ⟨0, "Job directory already exists"⟩,
       ⟨some [("w7", ⟨some (.obj ⟨some "d", some ["true"], some "w7",
        some 0, some 0, some 0⟩), []⟩)], [], 0⟩) :=
  create_twice_already_exists ⟨some [], [], 0⟩
    ⟨some [("w7", ⟨some (.obj ⟨some "d", some ["true"], some "w7",
      some 0, some 0, some 0⟩), []⟩)], [], 0⟩
    "w7" ⟨some "d", some ["true"], none, none, none, none⟩
    ⟨some "other", some ["false"], none, none, none, none⟩
    ⟨1, "Job created successfully"⟩ (by decide) rfl

end Viki
